import Mathlib

/-!
Verification of the authorization core and error boundary of a small
Flask drinks API (`src/backend/src/auth/auth.py` and
`src/backend/src/api.py`), against its natural-language specification.

The Python code is shallowly embedded: each function becomes a pure Lean
function; Python exceptions become `Except`; the third-party `jose` JWT
library and the network-fetched key set are abstracted as explicit
parameters (`JoseModel`, `Jwks`), since they are outside collaborators,
while every line of repository code is translated directly.
-/

/-- `AuthError(error, status_code)` from auth.py lines 24-27, with the
`error` dict flattened into its two fields `code` and `description`. -/
structure AuthError where
  code : String
  description : String
  status_code : Nat
deriving DecidableEq, Repr

/-- A Python exception escaping one of the auth functions: either an
`AuthError` instance, or any other (raw) exception, identified by its
message. -/
inductive PyErr where
  | auth (e : AuthError)
  | raw (exn : String)
deriving DecidableEq, Repr

/-- `AuthError({"code": "unauthorized", "description": "Unauthorized"}, 401)`
raised at auth.py lines 47, 52 and 55. -/
def unauthorizedErr : AuthError := ⟨"unauthorized", "Unauthorized", 401⟩

/-- `AuthError({"code": "forbidden", "description": "Forbidden"}, 403)`
raised at auth.py lines 75 and 78. -/
def forbiddenErr : AuthError := ⟨"forbidden", "Forbidden", 403⟩

/-- auth.py lines 106-108: token header lacks a kid. -/
def malformedHeaderErr : AuthError := ⟨"invalid_header", "Authorization malformed.", 401⟩

/-- auth.py lines 153-159: no key in the JWKS matches the kid. -/
def keyNotFoundErr : AuthError :=
  ⟨"invalid_header", "Unable to find the appropriate key.", 403⟩

/-- auth.py lines 133-135: expired signature. -/
def tokenExpiredErr : AuthError := ⟨"token_expired", "Token expired.", 401⟩

/-- auth.py lines 138-144: audience or issuer mismatch. -/
def invalidClaimsErr : AuthError :=
  ⟨"invalid_claims", "Incorrect claims. Please, check the audience and issuer.", 403⟩

/-- auth.py lines 145-152: any other exception raised by `jwt.decode`. -/
def unparseableTokenErr : AuthError :=
  ⟨"invalid_header", "Unable to parse authentication token.", 403⟩

/-- Python `s.split(" ")` on a character list: splits at every single
space, keeping empty pieces, and yields `[[]]` on the empty input. -/
def splitSpaceChars : List Char → List (List Char)
  | [] => [[]]
  | c :: cs =>
    match splitSpaceChars cs with
    | [] => [[c]]
    | p :: ps => if c = ' ' then [] :: p :: ps else (c :: p) :: ps

/-- Python `auth_header.split(" ")`: split on every single space,
keeping empty pieces. -/
def pySplitSpace (s : String) : List String :=
  (splitSpaceChars s.data).map String.mk

/-- Python `s.lower()`, restricted to ASCII case mapping (sufficient for
the `bearer` comparison). -/
def pyLower (s : String) : String := String.mk (s.data.map Char.toLower)

/-- `get_token_auth_header()` from auth.py lines 43-56.  The request is
represented by the value of its authorization header, or `none` when the
header is absent (werkzeug header lookup is case-insensitive, so only the
value matters). -/
def get_token_auth_header (authorizationHeader : Option String) : Except AuthError String :=
  match authorizationHeader with
  | Option.none => .error unauthorizedErr
  | Option.some auth_header =>
    let pieces := pySplitSpace auth_header
    if pieces.length ≠ 2 then .error unauthorizedErr
    else if pyLower (pieces.headD "") ≠ "bearer" then .error unauthorizedErr
    else .ok (pieces.getD 1 "")

/-- The decoded JWT claims payload.  Only the `permissions` claim is
inspected by the repository code (`check_permissions`); the remaining
claims are carried uninterpreted. -/
structure Payload where
  permissionsEntry : Option (List String)
  otherClaims : List (String × String)
deriving DecidableEq, Repr

/-- `check_permissions(permission, payload)` from auth.py lines 72-79.
`"permissions" not in payload` is `permissionsEntry = none`; Python `in`
on the permissions list is `List.contains`. -/
def check_permissions (permission : String) (payload : Payload) : Except AuthError Bool :=
  match payload.permissionsEntry with
  | Option.none => .error forbiddenErr
  | Option.some ps =>
    if ¬ ps.contains permission then .error forbiddenErr
    else .ok true

/-- One key descriptor of the fetched JWKS (`jwks["keys"][i]`), carrying
the five fields auth.py reads plus any extra fields the authority
published. -/
structure JwksKey where
  kty : String
  kid : String
  use : String
  n : String
  e : String
  extra : List (String × String)
deriving DecidableEq, Repr

/-- The JSON document fetched from `/.well-known/jwks.json`
(auth.py lines 99-100), already parsed; fetch or parse failure of this
document is a fatal configuration error outside the verification chain. -/
structure Jwks where
  keys : List JwksKey
deriving DecidableEq, Repr

/-- The `rsa_key` dict built at auth.py lines 112-118: exactly the five
fields copied out of the matching descriptor. -/
structure RsaKey where
  kty : String
  kid : String
  use : String
  n : String
  e : String
deriving DecidableEq, Repr

/-- The five-field projection performed at auth.py lines 112-118. -/
def projectKey (k : JwksKey) : RsaKey := ⟨k.kty, k.kid, k.use, k.n, k.e⟩

/-- The `for key in jwks["keys"]` loop of auth.py lines 110-118:
`rsa_key` starts as the falsy `{}` (here `none`) and is overwritten by
each matching descriptor, so the last match wins. -/
def resolveKey (keys : List JwksKey) (kid : String) : Option RsaKey :=
  keys.foldl (fun rsa_key key => if key.kid = kid then Option.some (projectKey key) else rsa_key)
    Option.none

/-- The result of `jwt.get_unverified_header(token)`: the unverified
token header, of which auth.py only reads the `kid` entry. -/
structure UnverifiedHeader where
  kid : Option String
deriving DecidableEq, Repr

/-- The possible outcomes of `jwt.decode(token, rsa_key, algorithms,
audience, issuer)` as distinguished by the handlers at auth.py
lines 121-152: success, `ExpiredSignatureError`, `JWTClaimsError`, or
any other exception (all caught by `except Exception`). -/
inductive DecodeOutcome where
  | ok (payload : Payload)
  | expired
  | claimsMismatch
  | otherFailure
deriving DecidableEq, Repr

/-- The behavior of the third-party `jose` JWT library on the tokens of
interest.  `getUnverifiedHeader` may fail with a raw `JWTError` (the
library raises on tokens whose header cannot be parsed); `decode` takes
the token, the resolved key, the algorithm allow-list, the audience and
the issuer, as at auth.py lines 122-128. -/
structure JoseModel where
  getUnverifiedHeader : String → Except String UnverifiedHeader
  decode : String → RsaKey → List String → String → String → DecodeOutcome

/-- The process-wide configuration read from the environment at
auth.py lines 13-15. -/
structure AuthConfig where
  auth0Domain : String
  algorithms : List String
  apiAudience : String

/-- The issuer string built at auth.py line 127. -/
def mkIssuer (cfg : AuthConfig) : String := "https://" ++ cfg.auth0Domain ++ "/"

/-- `verify_decode_jwt(token)` from auth.py lines 97-159.  The JWKS
fetch result and the `jose` library behavior are explicit parameters.
`jwt.get_unverified_header` is called outside the `try` block, so its
failure surfaces as a raw (non-AuthError) exception. -/
def verify_decode_jwt (cfg : AuthConfig) (jm : JoseModel) (jwks : Jwks) (token : String) :
    Except PyErr Payload :=
  match jm.getUnverifiedHeader token with
  | .error exn => .error (.raw exn)
  | .ok unverified_header =>
    match unverified_header.kid with
    | Option.none => .error (.auth malformedHeaderErr)
    | Option.some kid =>
      match resolveKey jwks.keys kid with
      | Option.none => .error (.auth keyNotFoundErr)
      | Option.some rsa_key =>
        match jm.decode token rsa_key cfg.algorithms cfg.apiAudience (mkIssuer cfg) with
        | .ok payload => .ok payload
        | .expired => .error (.auth tokenExpiredErr)
        | .claimsMismatch => .error (.auth invalidClaimsErr)
        | .otherFailure => .error (.auth unparseableTokenErr)

/-- The body of the `try` block in `wrapper` (auth.py lines 178-181):
extraction, then verification of the extracted token, then the
permission check on the verified payload. -/
def authChain (cfg : AuthConfig) (jm : JoseModel) (jwks : Jwks) (permission : String)
    (authorizationHeader : Option String) : Except PyErr Payload :=
  match get_token_auth_header authorizationHeader with
  | .error e => .error (.auth e)
  | .ok token =>
    match verify_decode_jwt cfg jm jwks token with
    | .error pe => .error pe
    | .ok payload =>
      match check_permissions permission payload with
      | .error e => .error (.auth e)
      | .ok _ => .ok payload

/-- What the `wrapper` closure of `requires_auth` (auth.py lines 177-184)
does with the request: `invoked args` means `f(*args, **kwargs)` runs
exactly once, receiving exactly `args` (the decoded payload is not among
the arguments, matching line 182); `aborted` is the `abort(e.status_code, e)`
call of line 184; `raised` is a non-AuthError exception escaping the
`except AuthError` handler. -/
inductive WrapperOutcome (α : Type) where
  | invoked (args : α)
  | aborted (status_code : Nat) (e : AuthError)
  | raised (exn : String)
deriving DecidableEq, Repr

/-- The `wrapper` closure produced by `requires_auth(permission)`
(auth.py lines 174-188), applied to a request carrying the given
authorization header and to the wrapped operation arguments `args`. -/
def requires_auth_wrapper (cfg : AuthConfig) (jm : JoseModel) (jwks : Jwks) (permission : String)
    (authorizationHeader : Option String) (args : α) : WrapperOutcome α :=
  match authChain cfg jm jwks permission authorizationHeader with
  | .ok _payload => .invoked args
  | .error (.auth e) => .aborted e.status_code e
  | .error (.raw exn) => .raised exn

deriving instance DecidableEq for Except

/-! ## Error boundary (api.py lines 198-262) -/

/-- The JSON error body produced by `handle_error`, together with the
HTTP status of the response tuple. -/
structure ErrResponse where
  success : Bool
  error : Nat
  message : String
  httpStatus : Nat
deriving DecidableEq, Repr

/-- An exception as seen by a registered Flask error handler: either an
actual `AuthError` instance, or the werkzeug `HTTPException` raised by
`abort(code, description)` — whose `description` attribute holds
whatever second argument `abort` received (at auth.py line 184, the
`AuthError` object itself). -/
inductive HandlerArg where
  | authError (e : AuthError)
  | httpException (code : Nat) (description : Option AuthError)
deriving DecidableEq, Repr

/-- `handle_error(err, status_code, default_message)` from api.py
lines 198-216.  The first branch fires only when `err` is an `AuthError`
instance (`isinstance(err, AuthError)`). -/
def handle_error (err : HandlerArg) (status_code : Nat) (default_message : String) :
    ErrResponse :=
  match err with
  | .authError e => ⟨false, e.status_code, e.description, e.status_code⟩
  | .httpException _ _ => ⟨false, status_code, default_message, status_code⟩

/-- The fixed default message each registered error handler passes to
`handle_error` (api.py lines 219-262); `none` for codes with no
registered handler. -/
def registeredDefaultMessage (code : Nat) : Option String :=
  if code = 400 then Option.some "Bad Request"
  else if code = 401 then Option.some "Unauthorized"
  else if code = 403 then Option.some "Forbidden"
  else if code = 404 then Option.some "Not Found"
  else if code = 405 then Option.some "Method Not Allowed"
  else if code = 415 then Option.some "Unsupported Media Type"
  else if code = 422 then Option.some "Unprocessable Content"
  else if code = 500 then Option.some "Internal Server Error"
  else Option.none

/-- Flask dispatch of a raised exception to the registered handlers.
`abort(code, e)` raises an `HTTPException` for `code`, so the handler
registered for that status code receives the `HTTPException` object
(never the `AuthError` itself); an uncaught non-HTTP exception is served
as a 500, the handler receiving an `InternalServerError` instance. -/
def flaskErrorResponse (exc : HandlerArg) : Option ErrResponse :=
  match exc with
  | .httpException code desc =>
    (registeredDefaultMessage code).map (handle_error (.httpException code desc) code)
  | .authError _ =>
    (registeredDefaultMessage 500).map (handle_error (.httpException 500 Option.none) 500)

/-- The boundary response the client sees for one wrapped-request
outcome: `none` when the wrapped operation ran (no error response). -/
def boundaryResponse (o : WrapperOutcome α) : Option ErrResponse :=
  match o with
  | .invoked _ => Option.none
  | .aborted status_code e => flaskErrorResponse (.httpException status_code (Option.some e))
  | .raised exn => flaskErrorResponse (.authError ⟨"", exn, 0⟩) |>.map id

/-! ## PATCH /drinks/(id) field handling (api.py lines 124-153) -/

/-- A Python/JSON value, as handled by `update_drink`. -/
inductive PyVal where
  | vnone
  | vbool (b : Bool)
  | vnum (n : Int)
  | vstr (s : String)
  | vlist (xs : List PyVal)
  | vdict (kvs : List (String × PyVal))

/-- Python truthiness of a value. -/
def truthy : PyVal → Bool
  | .vnone => false
  | .vbool b => b
  | .vnum n => n ≠ 0
  | .vstr s => s ≠ ""
  | .vlist xs => ¬ xs.isEmpty
  | .vdict kvs => ¬ kvs.isEmpty

/-- `isinstance(v, str)`. -/
def isStr : PyVal → Bool
  | .vstr _ => true
  | _ => false

/-- `isinstance(v, list)`. -/
def isList : PyVal → Bool
  | .vlist _ => true
  | _ => false

/-- Python `d.get(k)`: the value stored under `k`, or `None`. -/
def pyget (d : PyVal) (k : String) : PyVal :=
  match d with
  | .vdict kvs => ((kvs.find? (fun kv => kv.1 = k)).map (fun kv => kv.2)).getD .vnone
  | _ => .vnone

/-- Python `a or b`: `a` when truthy, else `b`. -/
def pyOr (a b : PyVal) : PyVal := if truthy a then a else b

mutual

/-- `json.dumps` on a value (default separators; string escaping is not
modelled, as no input of interest needs it). -/
def dumps : PyVal → String
  | .vnone => "null"
  | .vbool true => "true"
  | .vbool false => "false"
  | .vnum n => toString n
  | .vstr s => "\"" ++ s ++ "\""
  | .vlist xs => "[" ++ String.intercalate ", " (dumpsList xs) ++ "]"
  | .vdict kvs => "\x7b" ++ String.intercalate ", " (dumpsEntries kvs) ++ "\x7d"

/-- `json.dumps` of each element of a list. -/
def dumpsList : List PyVal → List String
  | [] => []
  | x :: xs => dumps x :: dumpsList xs

/-- `json.dumps` of each entry of an object. -/
def dumpsEntries : List (String × PyVal) → List String
  | [] => []
  | (k, v) :: kvs => ("\"" ++ k ++ "\": " ++ dumps v) :: dumpsEntries kvs

end

/-- One `Drink` row as touched by `update_drink`: its `title` and
`recipe` columns (the stored recipe is a JSON string). -/
structure DrinkRow where
  title : PyVal
  recipe : PyVal

/-- The ingredient loop of api.py lines 136-142: every element must
have truthy `name`, `color` and `parts`.  (Iterating a truthy non-list
would raise in Python; that case is modelled as not passing.) -/
def ingredientsOk : PyVal → Bool
  | .vlist xs =>
    xs.all (fun ing => truthy (pyget ing "name") && truthy (pyget ing "color")
      && truthy (pyget ing "parts"))
  | _ => false

/-- Python equality between a request value and a stored (string) drink
title, as used by the uniqueness query of api.py lines 144-148. -/
def eqTitle (v : PyVal) (t : String) : Bool :=
  match v with
  | .vstr s => s = t
  | _ => false

/-- The validation gate of `update_drink` (api.py lines 129-148): the
body must be truthy with a string `title` or a list `recipe`; a truthy
`recipe` must pass the ingredient loop; a truthy `title` must not
collide with an existing drink title. -/
def update_drink_validates (body : PyVal) (existingTitles : List String) : Bool :=
  truthy body
  && (isStr (pyget body "title") || isList (pyget body "recipe"))
  && (if truthy (pyget body "recipe") then ingredientsOk (pyget body "recipe") else true)
  && (if truthy (pyget body "title")
      then ¬ existingTitles.any (eqTitle (pyget body "title")) else true)

/-- The field assignments of api.py lines 150-151:
`drink.title = body.get("title") or drink.title` and
`drink.recipe = json.dumps(body.get("recipe")) or drink.recipe`.
Note that `json.dumps` runs before the `or`. -/
def update_drink_fields (body : PyVal) (drink : DrinkRow) : DrinkRow :=
  { title := pyOr (pyget body "title") drink.title,
    recipe := pyOr (.vstr (dumps (pyget body "recipe"))) drink.recipe }

/-- The malformed-credential condition of the specification: the
authorization header is absent, or it does not split on spaces into
exactly two pieces, or the first piece does not lowercase to `bearer`. -/
def malformedAuthHeaderShape (h : Option String) : Bool :=
  match h with
  | Option.none => true
  | Option.some v =>
    ((pySplitSpace v).length != 2) || (pyLower ((pySplitSpace v).headD "") != "bearer")

/-! ## Concrete fixtures used by witnesses and counterexamples -/

/-- Does a verification result carry an `AuthError` (as opposed to
succeeding or letting a raw exception escape)? -/
def isAuthFailure : Except PyErr Payload → Bool
  | .error (.auth _) => true
  | _ => false

/-- A sample configuration. -/
def cfg0 : AuthConfig := ⟨"dev-example.us.auth0.com", ["RS256"], "drinks"⟩

/-- A sample published key descriptor with kid `K1`. -/
def key1 : JwksKey :=
  ⟨"RSA", "K1", "sig", "modulus-bytes-1", "AQAB", [("alg", "RS256")]⟩

/-- A second descriptor with a different kid. -/
def key2 : JwksKey :=
  ⟨"RSA", "K2", "sig", "modulus-bytes-2", "AQAB", []⟩

/-- A key set holding `key2` then `key1`. -/
def jwks1 : Jwks := ⟨[key2, key1]⟩

/-- An empty key set: no kid can match. -/
def jwksEmpty : Jwks := ⟨[]⟩

/-- A payload for one user, holding the detail permission. -/
def payloadA : Payload := ⟨Option.some ["get:drinks-detail"], [("sub", "user-a")]⟩

/-- A payload for a different user, also holding the detail permission. -/
def payloadB : Payload := ⟨Option.some ["get:drinks-detail"], [("sub", "user-b")]⟩

/-- Library behavior on a well-formed, valid token of user a: header
parses with kid `K1`, decoding succeeds with `payloadA`. -/
def jmOkA : JoseModel :=
  ⟨fun _ => .ok ⟨Option.some "K1"⟩, fun _ _ _ _ _ => .ok payloadA⟩

/-- Library behavior on a well-formed, valid token of user b. -/
def jmOkB : JoseModel :=
  ⟨fun _ => .ok ⟨Option.some "K1"⟩, fun _ _ _ _ _ => .ok payloadB⟩

/-- Library behavior on a token whose header cannot be parsed:
`jwt.get_unverified_header` raises `JWTError`, a raw non-AuthError
exception. -/
def jmHeaderRaises : JoseModel :=
  ⟨fun _ => .error "JWTError: Error decoding token headers.", fun _ _ _ _ _ => .otherFailure⟩

/-- Library behavior on a parseable token whose header lacks a kid. -/
def jmNoKid : JoseModel :=
  ⟨fun _ => .ok ⟨Option.none⟩, fun _ _ _ _ _ => .otherFailure⟩

/-- Library behavior on an expired, otherwise valid token with kid `K1`:
`jwt.decode` raises `ExpiredSignatureError`. -/
def jmExpired : JoseModel :=
  ⟨fun _ => .ok ⟨Option.some "K1"⟩, fun _ _ _ _ _ => .expired⟩

/-- Library behavior on an unexpired token with kid `K1` whose audience
or issuer mismatches: `jwt.decode` raises `JWTClaimsError`. -/
def jmBadClaims : JoseModel :=
  ⟨fun _ => .ok ⟨Option.some "K1"⟩, fun _ _ _ _ _ => .claimsMismatch⟩

/-- Library behavior on a token with kid `K1` whose signature is bad (or
any other `jwt.decode` failure): some other exception is raised. -/
def jmBadSignature : JoseModel :=
  ⟨fun _ => .ok ⟨Option.some "K1"⟩, fun _ _ _ _ _ => .otherFailure⟩

/-- A PATCH body carrying a present-but-falsy recipe (the empty list)
and no title. -/
def bodyEmptyRecipe : PyVal := .vdict [("recipe", .vlist [])]

/-- A stored drink row before the PATCH. -/
def drinkRow0 : DrinkRow :=
  ⟨.vstr "Water",
   .vstr "[\x7b\"name\": \"Water\", \"color\": \"blue\", \"parts\": 1\x7d]"⟩

/-! ## Helper lemmas -/

/-- `check_permissions` can only succeed with the value `True`
(auth.py line 79). -/
theorem check_permissions_ok_true (permission : String) (payload : Payload) (b : Bool)
    (h : check_permissions permission payload = .ok b) : b = true := by
  unfold check_permissions at h
  split at h
  · cases h
  · split at h
    · cases h
    · injection h with h'
      exact h'.symm

/-- The JWKS scan loop leaves its accumulator unchanged when no
descriptor matches the kid. -/
theorem resolve_loop_no_match (kid : String) :
    ∀ (keys : List JwksKey) (acc : Option RsaKey), (∀ k ∈ keys, k.kid ≠ kid) →
      keys.foldl
        (fun rsa_key key => if key.kid = kid then Option.some (projectKey key) else rsa_key)
        acc = acc := by
  intro keys
  induction keys with
  | nil => intro acc _; rfl
  | cons k ks ih =>
    intro acc hno
    have hk : k.kid ≠ kid := hno k (List.mem_cons_self k ks)
    have hs : ∀ k' ∈ ks, k'.kid ≠ kid := fun k' hk' => hno k' (List.mem_cons_of_mem k hk')
    simp only [List.foldl_cons, if_neg hk]
    exact ih acc hs

/-- When some descriptor matches the kid, the JWKS scan loop ends on the
projection of a matching descriptor, whatever its accumulator held. -/
theorem resolve_loop_hits_match (kid : String) :
    ∀ (keys : List JwksKey) (acc : Option RsaKey), (∃ k ∈ keys, k.kid = kid) →
      ∃ k ∈ keys, k.kid = kid ∧
        keys.foldl
          (fun rsa_key key => if key.kid = kid then Option.some (projectKey key) else rsa_key)
          acc = Option.some (projectKey k) := by
  intro keys
  induction keys with
  | nil => intro acc h; exact absurd h (by simp)
  | cons k ks ih =>
    intro acc h
    by_cases hrest : ∃ k' ∈ ks, k'.kid = kid
    · obtain ⟨k', hk'mem, hk'kid, hfold⟩ := ih _ hrest
      exact ⟨k', List.mem_cons_of_mem k hk'mem, hk'kid, by simpa using hfold⟩
    · have hk : k.kid = kid := by
        obtain ⟨k0, hk0mem, hk0kid⟩ := h
        rcases List.mem_cons.mp hk0mem with h0 | h0
        · exact h0 ▸ hk0kid
        · exact absurd ⟨k0, h0, hk0kid⟩ hrest
      refine ⟨k, List.mem_cons_self k ks, hk, ?_⟩
      have hno : ∀ k' ∈ ks, k'.kid ≠ kid := by
        intro k' hk' hkid
        exact hrest ⟨k', hk', hkid⟩
      simp only [List.foldl_cons, if_pos hk]
      exact resolve_loop_no_match kid ks _ hno

/-! ## Claim theorems -/

/-- C6: for every required permission string and decoded claims payload,
`check_permissions` fails with the AuthError coded `forbidden` and
status 403 exactly when the payload has no `permissions` entry or the
required permission is not a member of the permissions collection, and
returns `True` otherwise.  Determinism and absence of side effects hold
by construction: the embedding is a pure function of its two inputs. -/
theorem check_permissions_characterization (permission : String) (payload : Payload) :
    (payload.permissionsEntry = Option.none →
      check_permissions permission payload = .error forbiddenErr)
    ∧ (∀ ps, payload.permissionsEntry = Option.some ps →
        (ps.contains permission = false →
          check_permissions permission payload = .error forbiddenErr)
        ∧ (ps.contains permission = true →
          check_permissions permission payload = .ok true))
    ∧ (∀ e, check_permissions permission payload = .error e →
        e = forbiddenErr ∧
          (payload.permissionsEntry = Option.none ∨
            ∃ ps, payload.permissionsEntry = Option.some ps ∧ ps.contains permission = false))
    ∧ forbiddenErr.code = "forbidden" ∧ forbiddenErr.status_code = 403 := by
  refine ⟨?_, ?_, ?_, rfl, rfl⟩
  · intro h
    simp [check_permissions, h]
  · intro ps h
    refine ⟨fun hc => ?_, fun hc => ?_⟩ <;> unfold check_permissions <;> rw [h] <;>
      simp <;> simpa using hc
  · intro e he
    unfold check_permissions at he
    split at he
    · rename_i hp
      injection he with he'
      exact ⟨he'.symm, Or.inl hp⟩
    · rename_i ps hp
      split at he
      · rename_i hc
        injection he with he'
        exact ⟨he'.symm, Or.inr ⟨ps, hp, by simpa using hc⟩⟩
      · cases he

/-- C6 witness: lacking the permission fails with `forbidden`; holding
it succeeds with `True`. -/
theorem check_permissions_characterization_witness :
    check_permissions "post:drinks" ⟨Option.some ["get:drinks"], []⟩ = .error forbiddenErr
    ∧ check_permissions "get:drinks" ⟨Option.some ["get:drinks"], []⟩ = .ok true := by
  constructor
  · exact ((check_permissions_characterization "post:drinks"
      ⟨Option.some ["get:drinks"], []⟩).2.1 ["get:drinks"] rfl).1 (by decide)
  · exact ((check_permissions_characterization "get:drinks"
      ⟨Option.some ["get:drinks"], []⟩).2.1 ["get:drinks"] rfl).2 (by decide)

/-- C5: once the key identifier has matched a key, an expired signature
is mapped to `token_expired`/401 and an audience or issuer mismatch to
`invalid_claims`/403, and these codes are distinct from each other and
from `invalid_header`. -/
theorem verify_taxonomy_expired_claims (cfg : AuthConfig) (jm : JoseModel) (jwks : Jwks)
    (token kid : String) (k : RsaKey)
    (hhdr : jm.getUnverifiedHeader token = .ok ⟨Option.some kid⟩)
    (hkey : resolveKey jwks.keys kid = Option.some k) :
    (jm.decode token k cfg.algorithms cfg.apiAudience (mkIssuer cfg) = .expired →
      verify_decode_jwt cfg jm jwks token = .error (.auth tokenExpiredErr))
    ∧ (jm.decode token k cfg.algorithms cfg.apiAudience (mkIssuer cfg) = .claimsMismatch →
      verify_decode_jwt cfg jm jwks token = .error (.auth invalidClaimsErr))
    ∧ tokenExpiredErr.status_code = 401 ∧ invalidClaimsErr.status_code = 403
    ∧ tokenExpiredErr.code ≠ invalidClaimsErr.code
    ∧ tokenExpiredErr.code ≠ "invalid_header"
    ∧ invalidClaimsErr.code ≠ "invalid_header" := by
  refine ⟨?_, ?_, rfl, rfl, by decide, by decide, by decide⟩ <;>
    intro hd <;> simp [verify_decode_jwt, hhdr, hkey, hd]

/-- C5 witness: concrete expired and claims-mismatch scenarios against
the two-key set. -/
theorem verify_taxonomy_expired_claims_witness :
    verify_decode_jwt cfg0 jmExpired jwks1 "tok" = .error (.auth tokenExpiredErr)
    ∧ verify_decode_jwt cfg0 jmBadClaims jwks1 "tok" = .error (.auth invalidClaimsErr) := by
  constructor
  · exact (verify_taxonomy_expired_claims cfg0 jmExpired jwks1 "tok" "K1"
      (projectKey key1) rfl (by decide)).1 rfl
  · exact (verify_taxonomy_expired_claims cfg0 jmBadClaims jwks1 "tok" "K1"
      (projectKey key1) rfl (by decide)).2.1 rfl

/-- C8: when the fetched key set holds a descriptor whose kid equals the
declared key identifier, resolution yields a resolved key whose `kty`,
`kid`, `use`, `n` and `e` all equal those of a matching descriptor — no
field is altered in transit. -/
theorem resolveKey_roundtrip (keys : List JwksKey) (kid : String)
    (h : ∃ k ∈ keys, k.kid = kid) :
    ∃ k ∈ keys, k.kid = kid ∧ ∃ r, resolveKey keys kid = Option.some r ∧
      r.kty = k.kty ∧ r.kid = k.kid ∧ r.use = k.use ∧ r.n = k.n ∧ r.e = k.e := by
  obtain ⟨k, hmem, hkid, hfold⟩ := resolve_loop_hits_match kid keys Option.none h
  exact ⟨k, hmem, hkid, projectKey k, hfold, rfl, rfl, rfl, rfl, rfl⟩

/-- C8 witness: resolving `K1` against the two-key set preserves all
five fields of the `K1` descriptor. -/
theorem resolveKey_roundtrip_witness :
    ∃ k ∈ jwks1.keys, k.kid = "K1" ∧ ∃ r, resolveKey jwks1.keys "K1" = Option.some r ∧
      r.kty = k.kty ∧ r.kid = k.kid ∧ r.use = k.use ∧ r.n = k.n ∧ r.e = k.e :=
  resolveKey_roundtrip jwks1.keys "K1" ⟨key1, by decide, rfl⟩

/-- C7: the middleware runs extraction, key resolution, verification and
the permission check strictly in sequence.  If the wrapped operation is
invoked, each stage succeeded on the previous stage output (the guard
saw only the payload verification returned for the extracted token);
whenever an earlier stage raises an AuthError, the request aborts with
that error and the operation does not run.  Key resolution happens
inside `verify_decode_jwt`, between header parsing and decoding. -/
theorem requires_auth_stage_ordering (cfg : AuthConfig) (jm : JoseModel) (jwks : Jwks)
    (permission : String) (hdr : Option String) (args : α) :
    (requires_auth_wrapper cfg jm jwks permission hdr args = .invoked args →
      ∃ token payload, get_token_auth_header hdr = .ok token ∧
        verify_decode_jwt cfg jm jwks token = .ok payload ∧
        check_permissions permission payload = .ok true)
    ∧ (∀ e, get_token_auth_header hdr = .error e →
        requires_auth_wrapper cfg jm jwks permission hdr args = .aborted e.status_code e)
    ∧ (∀ token e, get_token_auth_header hdr = .ok token →
        verify_decode_jwt cfg jm jwks token = .error (.auth e) →
        requires_auth_wrapper cfg jm jwks permission hdr args = .aborted e.status_code e)
    ∧ (∀ token payload e, get_token_auth_header hdr = .ok token →
        verify_decode_jwt cfg jm jwks token = .ok payload →
        check_permissions permission payload = .error e →
        requires_auth_wrapper cfg jm jwks permission hdr args = .aborted e.status_code e) := by
  refine ⟨?_, ?_, ?_, ?_⟩
  · intro hinv
    unfold requires_auth_wrapper authChain at hinv
    cases hx : get_token_auth_header hdr with
    | error e => rw [hx] at hinv; simp at hinv
    | ok token =>
      simp only [hx] at hinv
      cases hv : verify_decode_jwt cfg jm jwks token with
      | error e =>
        simp only [hv] at hinv
        cases e <;> simp at hinv
      | ok payload =>
        simp only [hv] at hinv
        cases hc : check_permissions permission payload with
        | error e => simp only [hc] at hinv; simp at hinv
        | ok b =>
          have hb := check_permissions_ok_true permission payload b hc
          exact ⟨token, payload, hx ▸ rfl, hv, hb ▸ hc⟩
  · intro e hx
    unfold requires_auth_wrapper authChain
    rw [hx]
  · intro token e hx hv
    unfold requires_auth_wrapper authChain
    simp only [hx, hv]
  · intro token payload e hx hv hc
    unfold requires_auth_wrapper authChain
    simp only [hx, hv, hc]

/-- C7 witness: a fully valid request decomposes into the three stage
successes, and a request with no authorization header aborts with the
extraction error. -/
theorem requires_auth_stage_ordering_witness :
    (∃ token payload, get_token_auth_header (Option.some "Bearer tok") = .ok token ∧
      verify_decode_jwt cfg0 jmOkA jwks1 token = .ok payload ∧
      check_permissions "get:drinks-detail" payload = .ok true)
    ∧ requires_auth_wrapper cfg0 jmOkA jwks1 "get:drinks-detail" Option.none (0 : Nat) =
        .aborted 401 unauthorizedErr := by
  constructor
  · exact (requires_auth_stage_ordering cfg0 jmOkA jwks1 "get:drinks-detail"
      (Option.some "Bearer tok") (0 : Nat)).1 (by decide)
  · exact (requires_auth_stage_ordering cfg0 jmOkA jwks1 "get:drinks-detail"
      Option.none (0 : Nat)).2.1 unauthorizedErr rfl

/-- C1 counterexample: the wrapped operation does not receive the
decoded claims payload.  Two library behaviors that decode the same
fully valid request to two different payloads lead to identical
invocations of the wrapped operation — it receives exactly its original
arguments (auth.py line 182 calls `f(*args, **kwargs)`), so the decoded
payload cannot be among them. -/
theorem requires_auth_payload_not_passed :
    authChain cfg0 jmOkA jwks1 "get:drinks-detail" (Option.some "Bearer tok") = .ok payloadA
    ∧ authChain cfg0 jmOkB jwks1 "get:drinks-detail" (Option.some "Bearer tok") = .ok payloadB
    ∧ payloadA ≠ payloadB
    ∧ requires_auth_wrapper cfg0 jmOkA jwks1 "get:drinks-detail"
        (Option.some "Bearer tok") (7 : Nat) = .invoked 7
    ∧ requires_auth_wrapper cfg0 jmOkB jwks1 "get:drinks-detail"
        (Option.some "Bearer tok") (7 : Nat) = .invoked 7 := by
  refine ⟨by decide, by decide, by decide, by decide, by decide⟩

/-- C1 amended: for every fully valid request whose payload carries the
required permission, the middleware invokes the wrapped operation
exactly once, passing it exactly its original arguments; the decoded
payload is not passed through. -/
theorem requires_auth_invokes_once (cfg : AuthConfig) (jm : JoseModel) (jwks : Jwks)
    (permission : String) (hdr : Option String) (args : α) (payload : Payload)
    (h : authChain cfg jm jwks permission hdr = .ok payload) :
    requires_auth_wrapper cfg jm jwks permission hdr args = .invoked args := by
  unfold requires_auth_wrapper
  rw [h]

/-- C1 witness: the valid request of user a invokes the operation with
its original argument. -/
theorem requires_auth_invokes_once_witness :
    requires_auth_wrapper cfg0 jmOkA jwks1 "get:drinks-detail"
      (Option.some "Bearer tok") (7 : Nat) = .invoked 7 :=
  requires_auth_invokes_once cfg0 jmOkA jwks1 "get:drinks-detail"
    (Option.some "Bearer tok") (7 : Nat) payloadA (by decide)

/-- C2: for a request whose kid matches no published key, the chain
raises the AuthError `invalid_header`/403 with description
`Unable to find the appropriate key.`; the wrapped operation does not
run, and the boundary response keeps the status code 403 — but its
message is the fixed default `Forbidden`, not the description carried by
the AuthError, because `abort(e.status_code, e)` wraps the AuthError in an
`HTTPException`, so the `isinstance(err, AuthError)` branch of
`handle_error` (api.py lines 199-209) never fires. -/
theorem authError_description_dropped_at_boundary :
    requires_auth_wrapper cfg0 jmOkA jwksEmpty "get:drinks-detail"
      (Option.some "Bearer tok") (0 : Nat) = .aborted 403 keyNotFoundErr
    ∧ boundaryResponse (requires_auth_wrapper cfg0 jmOkA jwksEmpty "get:drinks-detail"
        (Option.some "Bearer tok") (0 : Nat)) = Option.some ⟨false, 403, "Forbidden", 403⟩
    ∧ keyNotFoundErr.description = "Unable to find the appropriate key."
    ∧ keyNotFoundErr.description ≠ "Forbidden"
    ∧ handle_error (.authError keyNotFoundErr) 403 "Forbidden" =
        ⟨false, 403, "Unable to find the appropriate key.", 403⟩ := by
  refine ⟨by decide, by decide, rfl, by decide, rfl⟩

/-- C3 counterexample: on a token whose header the library cannot parse,
`jwt.get_unverified_header` raises a raw `JWTError` outside the `try`
block of `verify_decode_jwt`, so the raw exception propagates instead of
an `invalid_header` AuthError. -/
theorem verify_raw_exception_escapes :
    verify_decode_jwt cfg0 jmHeaderRaises jwks1 "garbage" =
      .error (.raw "JWTError: Error decoding token headers.")
    ∧ isAuthFailure (verify_decode_jwt cfg0 jmHeaderRaises jwks1 "garbage") = false := by
  exact ⟨rfl, rfl⟩

/-- C3 amended: failures raised inside `jwt.decode` other than expiry
and claims mismatch are normalized to `invalid_header`/403; a parseable
header lacking a kid gives `invalid_header`/401; but a header parse
failure propagates the raw library exception out of
`verify_decode_jwt`. -/
theorem verify_failure_normalization (cfg : AuthConfig) (jm : JoseModel) (jwks : Jwks)
    (token : String) :
    (∀ kid k, jm.getUnverifiedHeader token = .ok ⟨Option.some kid⟩ →
      resolveKey jwks.keys kid = Option.some k →
      jm.decode token k cfg.algorithms cfg.apiAudience (mkIssuer cfg) = .otherFailure →
      verify_decode_jwt cfg jm jwks token = .error (.auth unparseableTokenErr))
    ∧ (jm.getUnverifiedHeader token = .ok ⟨Option.none⟩ →
      verify_decode_jwt cfg jm jwks token = .error (.auth malformedHeaderErr))
    ∧ (∀ exn, jm.getUnverifiedHeader token = .error exn →
      verify_decode_jwt cfg jm jwks token = .error (.raw exn))
    ∧ unparseableTokenErr.code = "invalid_header"
    ∧ unparseableTokenErr.status_code = 403 := by
  refine ⟨?_, ?_, ?_, rfl, rfl⟩
  · intro kid k hhdr hkey hd
    unfold verify_decode_jwt
    simp only [hhdr, hkey, hd]
  · intro hhdr
    unfold verify_decode_jwt
    simp only [hhdr]
  · intro exn hhdr
    unfold verify_decode_jwt
    simp only [hhdr]

/-- C3 amended witness: a bad-signature token with a matched key is
normalized to `invalid_header`/403; a kid-less token gives
`invalid_header`/401. -/
theorem verify_failure_normalization_witness :
    verify_decode_jwt cfg0 jmBadSignature jwks1 "tok" = .error (.auth unparseableTokenErr)
    ∧ verify_decode_jwt cfg0 jmNoKid jwks1 "tok" = .error (.auth malformedHeaderErr) := by
  constructor
  · exact (verify_failure_normalization cfg0 jmBadSignature jwks1 "tok").1 "K1"
      (projectKey key1) rfl (by decide) rfl
  · exact (verify_failure_normalization cfg0 jmNoKid jwks1 "tok").2.1 rfl

/-- C4: the Token Extractor fails — always with the `unauthorized`/401
error — exactly when the authorization header is absent, or does not
split on spaces into exactly two pieces, or the first piece does not
lowercase to `bearer`; in every other case it returns the second piece
verbatim. -/
theorem get_token_auth_header_characterization (h : Option String) :
    (malformedAuthHeaderShape h = true → get_token_auth_header h = .error unauthorizedErr)
    ∧ (∀ v, h = Option.some v → malformedAuthHeaderShape h = false →
        get_token_auth_header h = .ok ((pySplitSpace v).getD 1 ""))
    ∧ (∀ e, get_token_auth_header h = .error e →
        e = unauthorizedErr ∧ malformedAuthHeaderShape h = true)
    ∧ unauthorizedErr.code = "unauthorized" ∧ unauthorizedErr.status_code = 401 := by
  cases h with
  | none =>
    refine ⟨fun _ => rfl, ?_, ?_, rfl, rfl⟩
    · intro v hv
      exact absurd hv (by simp)
    · intro e he
      injection he with he'
      exact ⟨he'.symm, rfl⟩
  | some v =>
    by_cases h2 : (pySplitSpace v).length = 2
    · by_cases hb : pyLower ((pySplitSpace v).headD "") = "bearer"
      · have hb' : pyLower ((pySplitSpace v).head?.getD "") = "bearer" := by
          simpa using hb
        have hm : malformedAuthHeaderShape (Option.some v) = false := by
          simp [malformedAuthHeaderShape, h2, hb']
        refine ⟨?_, ?_, ?_, rfl, rfl⟩
        · intro hmt
          rw [hm] at hmt
          cases hmt
        · intro v' hv' _
          injection hv' with hv''
          subst hv''
          simp [get_token_auth_header, h2, hb']
        · intro e he
          simp [get_token_auth_header, h2, hb'] at he
      · have hb' : ¬ pyLower ((pySplitSpace v).head?.getD "") = "bearer" := by
          simpa using hb
        have hm : malformedAuthHeaderShape (Option.some v) = true := by
          simp [malformedAuthHeaderShape, hb']
        refine ⟨?_, ?_, ?_, rfl, rfl⟩
        · intro _
          simp [get_token_auth_header, h2, hb']
        · intro v' hv' hmf
          rw [hm] at hmf
          cases hmf
        · intro e he
          simp [get_token_auth_header, h2, hb'] at he
          exact ⟨he.symm, hm⟩
    · have hm : malformedAuthHeaderShape (Option.some v) = true := by
        simp [malformedAuthHeaderShape, h2]
      refine ⟨?_, ?_, ?_, rfl, rfl⟩
      · intro _
        simp [get_token_auth_header, h2]
      · intro v' hv' hmf
        rw [hm] at hmf
        cases hmf
      · intro e he
        simp [get_token_auth_header, h2] at he
        exact ⟨he.symm, hm⟩

/-- C4 witness: `Basic xyz`, `Bearer a b` and bare `Bearer` are
rejected with `unauthorized`; `Bearer abc` yields the token `abc`. -/
theorem get_token_auth_header_characterization_witness :
    get_token_auth_header (Option.some "Basic xyz") = .error unauthorizedErr
    ∧ get_token_auth_header (Option.some "Bearer a b") = .error unauthorizedErr
    ∧ get_token_auth_header (Option.some "Bearer") = .error unauthorizedErr
    ∧ get_token_auth_header (Option.some "Bearer abc") = .ok "abc" := by
  refine ⟨?_, ?_, ?_, ?_⟩
  · exact (get_token_auth_header_characterization (Option.some "Basic xyz")).1 (by decide)
  · exact (get_token_auth_header_characterization (Option.some "Bearer a b")).1 (by decide)
  · exact (get_token_auth_header_characterization (Option.some "Bearer")).1 (by decide)
  · exact ((get_token_auth_header_characterization (Option.some "Bearer abc")).2.1
      "Bearer abc" rfl (by decide)).trans (congrArg Except.ok (by decide))

/-- Serializing any falsy value still yields a nonempty string
(`"null"`, `"false"`, `"0"`, a quoted empty string, `"[]"`, or an empty
object), which Python treats as truthy. -/
theorem dumps_falsy_nonempty (v : PyVal) (hv : truthy v = false) : dumps v ≠ "" := by
  cases v with
  | vnone => decide
  | vbool b =>
    cases b with
    | true => simp [truthy] at hv
    | false => decide
  | vnum n =>
    have hn : n = 0 := by simpa [truthy] using hv
    subst hn
    decide
  | vstr s =>
    have hs : s = "" := by simpa [truthy] using hv
    subst hs
    decide
  | vlist xs =>
    have hx : xs = [] := by simpa [truthy] using hv
    subst hx
    decide
  | vdict kvs =>
    have hk : kvs = [] := by simpa [truthy] using hv
    subst hk
    decide

/-- C9 counterexample: a PATCH body `{"recipe": []}` passes validation
and its recipe is present but falsy, yet the stored recipe is NOT kept:
`json.dumps` runs before the `or` fallback of api.py line 151 and
returns the truthy string `"[]"`, which overwrites the stored value.
(The absent falsy title is kept, as the claim says.) -/
theorem update_empty_recipe_overwrites :
    update_drink_validates bodyEmptyRecipe ["Water"] = true
    ∧ truthy (pyget bodyEmptyRecipe "recipe") = false
    ∧ (update_drink_fields bodyEmptyRecipe drinkRow0).title = drinkRow0.title
    ∧ (update_drink_fields bodyEmptyRecipe drinkRow0).recipe = .vstr "[]"
    ∧ ¬ (update_drink_fields bodyEmptyRecipe drinkRow0).recipe = drinkRow0.recipe := by
  refine ⟨rfl, rfl, rfl, rfl, ?_⟩
  intro hcontra
  have h2 : PyVal.vstr "[]" =
      PyVal.vstr "[\x7b\"name\": \"Water\", \"color\": \"blue\", \"parts\": 1\x7d]" := hcontra
  injection h2 with hs
  exact absurd hs (by decide)

/-- C9 amended: in the update-endpoint field handling, a present-but-
falsy (or absent) title keeps the stored title, but a falsy recipe does
not keep the stored recipe: `json.dumps` serializes it to a nonempty —
hence truthy — string which overwrites the stored value. -/
theorem update_falsy_field_handling (body : PyVal) (drink : DrinkRow) :
    (truthy (pyget body "title") = false →
      (update_drink_fields body drink).title = drink.title)
    ∧ (truthy (pyget body "recipe") = false →
      (update_drink_fields body drink).recipe = .vstr (dumps (pyget body "recipe"))
      ∧ dumps (pyget body "recipe") ≠ "") := by
  constructor
  · intro ht
    unfold update_drink_fields pyOr
    simp [ht]
  · intro hr
    have hne := dumps_falsy_nonempty (pyget body "recipe") hr
    refine ⟨?_, hne⟩
    unfold update_drink_fields pyOr
    have htr : truthy (.vstr (dumps (pyget body "recipe"))) = true := by
      simpa [truthy] using hne
    simp [htr]

/-- C9 amended witness: an empty-string title is kept, while the empty
recipe of `bodyEmptyRecipe` is overwritten by its serialization. -/
theorem update_falsy_field_handling_witness :
    (update_drink_fields (.vdict [("title", .vstr "")]) drinkRow0).title = drinkRow0.title
    ∧ (update_drink_fields bodyEmptyRecipe drinkRow0).recipe =
        .vstr (dumps (pyget bodyEmptyRecipe "recipe")) := by
  constructor
  · exact (update_falsy_field_handling (.vdict [("title", .vstr "")]) drinkRow0).1 (by decide)
  · exact ((update_falsy_field_handling bodyEmptyRecipe drinkRow0).2 (by decide)).1

/-- C10: a header value that splits into exactly two pieces, the first
lowercasing to `bearer` and the second empty (such as `Bearer ` with a
trailing space), is accepted by the Token Extractor, which returns the
empty string; the chain then hands the empty token to verification
rather than rejecting it at extraction. -/
theorem empty_bearer_token_accepted (v : String)
    (h1 : (pySplitSpace v).length = 2)
    (h2 : pyLower ((pySplitSpace v).headD "") = "bearer")
    (h3 : (pySplitSpace v).getD 1 "" = "") :
    get_token_auth_header (Option.some v) = .ok ""
    ∧ ∀ cfg jm jwks (permission : String),
        authChain cfg jm jwks permission (Option.some v) =
          match verify_decode_jwt cfg jm jwks "" with
          | .error pe => .error pe
          | .ok payload =>
            match check_permissions permission payload with
            | .error e => .error (.auth e)
            | .ok _ => .ok payload := by
  have h2' : pyLower ((pySplitSpace v).head?.getD "") = "bearer" := by simpa using h2
  have hget : get_token_auth_header (Option.some v) = .ok "" := by
    simp only [get_token_auth_header]
    rw [if_neg (by simp [h1]), if_neg (by simp [h2'])]
    exact congrArg Except.ok h3
  refine ⟨hget, ?_⟩
  intro cfg jm jwks permission
  unfold authChain
  rw [hget]

/-- C10 witness: the literal header value `Bearer ` (trailing space)
yields the empty token. -/
theorem empty_bearer_token_accepted_witness :
    get_token_auth_header (Option.some "Bearer ") = .ok "" :=
  (empty_bearer_token_accepted "Bearer " (by decide) (by decide) (by decide)).1
